import Mathlib

/-!
Verification of the AssessSight backend core logic: the scan scoring engine
(`calculateScore`), form detection (`hasFormElements`), issue enrichment,
the scan orchestration resource handling, and the fix-suggestion fallback
chain, shallowly embedded from the JavaScript source.
-/

namespace AssessSight

/-- One accessibility issue, as produced by the engine or the enricher.
Fields `message`, `selector`, `context` are optional in the JS objects. -/
structure Issue where
  type : String
  code : String
  message : Option String
  selector : Option String
  context : Option String
deriving DecidableEq

/-- Does the list start with the given pattern of characters? -/
def isPrefixL : List Char → List Char → Bool
  | [], _ => true
  | _ :: _, [] => false
  | p :: ps, c :: cs => (c = p) && isPrefixL ps cs

/-- Does the list contain the pattern as a contiguous sublist? -/
def containsSub (sub : List Char) : List Char → Bool
  | [] => sub.isEmpty
  | c :: rest => isPrefixL sub (c :: rest) || containsSub sub rest

/-- JS `s.includes(sub)`: substring containment. -/
def jsIncludes (s sub : String) : Bool :=
  containsSub sub.data s.data

/-- JS `s.toLowerCase()` (ASCII case folding as in `Char.toLower`). -/
def lowerStr (s : String) : String :=
  String.mk (s.data.map Char.toLower)

/-- Number of issues whose `type` field equals `t`
(the `issues.filter(i => i.type === t).length` pattern in `calculateScore`). -/
def countType (issues : List Issue) (t : String) : Nat :=
  (issues.filter (fun i => i.type == t)).length

/-- `totalIssues` local of `calculateScore`: errors + warnings + notices. -/
def totalIssues (issues : List Issue) : Nat :=
  countType issues ("error") + countType issues ("warning") + countType issues ("notice")

/-- `scaleFactor` local of `calculateScore`: `totalIssues > 50 ? 50/totalIssues : 1`. -/
def scaleFactor (issues : List Issue) : ℚ :=
  if totalIssues issues > 50 then 50 / (totalIssues issues : ℚ) else 1

/-- JS `Math.round`: round half toward positive infinity. -/
def jsRound (x : ℚ) : ℤ :=
  ⌊x + 1 / 2⌋

/-- `calculateScore` from `scan.js`: deductions of 3 per error, 1 per warning,
0.5 per notice, each scaled by `scaleFactor`, subtracted in sequence from 100,
rounded, then clamped below at 0 by `Math.max`. -/
def calculateScore (issues : List Issue) : ℤ :=
  max 0 (jsRound ((100 : ℚ)
    - (countType issues ("error") : ℚ) * 3 * scaleFactor issues
    - (countType issues ("warning") : ℚ) * 1 * scaleFactor issues
    - (countType issues ("notice") : ℚ) * (1 / 2) * scaleFactor issues))

/-- `calculateScore` including the `!issues || !Array.isArray(issues)` guard:
a missing or non-array argument yields 100. -/
def calculateScoreJS : Option (List Issue) → ℤ
  | none => 100
  | some issues => calculateScore issues

/-- The scoring formula as the specification words it:
`round(clamp(100 - deduction, 0, 100))` with the deduction formed as one sum. -/
def specScore (issues : List Issue) : ℤ :=
  jsRound (max 0 (min 100 ((100 : ℚ)
    - ((countType issues ("error") : ℚ) * 3 * scaleFactor issues
       + (countType issues ("warning") : ℚ) * 1 * scaleFactor issues
       + (countType issues ("notice") : ℚ) * (1 / 2) * scaleFactor issues))))

lemma jsRound_nonneg {x : ℚ} (hx : 0 ≤ x) : 0 ≤ jsRound x := by
  unfold jsRound
  exact Int.le_floor.mpr (by push_cast; linarith)

lemma jsRound_nonpos {x : ℚ} (hx : x < 0) : jsRound x ≤ 0 := by
  unfold jsRound
  have h : ⌊x + 1 / 2⌋ < 1 := Int.floor_lt.mpr (by push_cast; linarith)
  omega

lemma jsRound_le_100 {x : ℚ} (hx : x ≤ 100) : jsRound x ≤ 100 := by
  unfold jsRound
  have h : ⌊x + 1 / 2⌋ < 101 := Int.floor_lt.mpr (by push_cast; linarith)
  omega

lemma jsRound_zero : jsRound 0 = 0 := by norm_num [jsRound]

/-- Clamping after rounding (the code) agrees with rounding after clamping
(the spec) whenever the unclamped value is at most 100. -/
lemma max_jsRound_eq {x : ℚ} (hx : x ≤ 100) :
    max 0 (jsRound x) = jsRound (max 0 (min 100 x)) := by
  rcases le_or_lt 0 x with h | h
  · rw [min_eq_right hx, max_eq_right h, max_eq_right (jsRound_nonneg h)]
  · rw [min_eq_right hx, max_eq_left h.le, jsRound_zero,
      max_eq_left (jsRound_nonpos h)]

lemma scaleFactor_nonneg (issues : List Issue) : 0 ≤ scaleFactor issues := by
  unfold scaleFactor
  split
  · exact div_nonneg (by norm_num) (Nat.cast_nonneg _)
  · norm_num

lemma countType_eq_of_map_perm {l1 l2 : List Issue} (t : String)
    (h : (l1.map Issue.type).Perm (l2.map Issue.type)) :
    countType l1 t = countType l2 t := by
  have key : ∀ l : List Issue,
      countType l t = ((l.map Issue.type).filter (fun s => s == t)).length := by
    intro l
    induction l with
    | nil => rfl
    | cons i rest ih =>
      simp only [countType, List.map_cons, List.filter_cons] at *
      cases hb : (i.type == t) <;> simp [hb, ih]
  rw [key l1, key l2, (h.filter (fun s => s == t)).length_eq]

lemma scaleFactor_eq_of_map_perm {l1 l2 : List Issue}
    (h : (l1.map Issue.type).Perm (l2.map Issue.type)) :
    scaleFactor l1 = scaleFactor l2 := by
  unfold scaleFactor totalIssues
  rw [countType_eq_of_map_perm ("error") h, countType_eq_of_map_perm ("warning") h,
    countType_eq_of_map_perm ("notice") h]

/-- C1: `calculateScore` equals the specification formula
`round(clamp(100 - (errors*3 + warnings*1 + notices*0.5)*scaleFactor, 0, 100))`,
its value is an integer in `[0, 100]`, it is 100 for non-array input and for
the empty list, and it depends only on the multiset of issue types. -/
theorem C1_calculateScore_spec (issues : List Issue) :
    calculateScore issues = specScore issues ∧
    0 ≤ calculateScore issues ∧ calculateScore issues ≤ 100 ∧
    calculateScoreJS none = 100 ∧ calculateScore ([] : List Issue) = 100 ∧
    ∀ l2 : List Issue, (issues.map Issue.type).Perm (l2.map Issue.type) →
      calculateScore issues = calculateScore l2 := by
  have hsf := scaleFactor_nonneg issues
  have he : (0 : ℚ) ≤ (countType issues ("error") : ℚ) * 3 * scaleFactor issues :=
    mul_nonneg (mul_nonneg (Nat.cast_nonneg _) (by norm_num)) hsf
  have hw : (0 : ℚ) ≤ (countType issues ("warning") : ℚ) * 1 * scaleFactor issues :=
    mul_nonneg (mul_nonneg (Nat.cast_nonneg _) (by norm_num)) hsf
  have hn : (0 : ℚ) ≤ (countType issues ("notice") : ℚ) * (1 / 2) * scaleFactor issues :=
    mul_nonneg (mul_nonneg (Nat.cast_nonneg _) (by norm_num)) hsf
  refine ⟨?_, le_max_left 0 _, ?_, rfl, ?_, ?_⟩
  · unfold calculateScore specScore
    rw [show (100 : ℚ)
        - (countType issues ("error") : ℚ) * 3 * scaleFactor issues
        - (countType issues ("warning") : ℚ) * 1 * scaleFactor issues
        - (countType issues ("notice") : ℚ) * (1 / 2) * scaleFactor issues
      = 100 - ((countType issues ("error") : ℚ) * 3 * scaleFactor issues
        + (countType issues ("warning") : ℚ) * 1 * scaleFactor issues
        + (countType issues ("notice") : ℚ) * (1 / 2) * scaleFactor issues) from by ring]
    exact max_jsRound_eq (by linarith)
  · unfold calculateScore
    exact max_le (by norm_num) (jsRound_le_100 (by linarith))
  · norm_num [calculateScore, countType, totalIssues, scaleFactor, jsRound]
  · intro l2 hp
    unfold calculateScore
    rw [countType_eq_of_map_perm ("error") hp, countType_eq_of_map_perm ("warning") hp,
      countType_eq_of_map_perm ("notice") hp, scaleFactor_eq_of_map_perm hp]

/-- Sample issues used in concrete witnesses. -/
def errIssue : Issue :=
  { type := "error", code := "e1", message := none, selector := none, context := none }

def warnIssue : Issue :=
  { type := "warning", code := "w1", message := none, selector := none, context := none }

def noticeIssue : Issue :=
  { type := "notice", code := "n1", message := none, selector := none, context := none }

def noticeIssue2 : Issue :=
  { type := "notice", code := "n2", message := some ("other"), selector := none, context := none }

/-- C1 witness: the permutation-invariance part applied at concrete lists with
the same type multiset but different order and other fields. -/
theorem C1_witness :
    calculateScore [errIssue, noticeIssue] = calculateScore [noticeIssue2, errIssue] :=
  (C1_calculateScore_spec [errIssue, noticeIssue]).2.2.2.2.2 [noticeIssue2, errIssue]
    (by decide)

/-- Optional-chaining `s?.includes(sub)`: an absent string never matches. -/
def optIncludes (s : Option String) (sub : String) : Bool :=
  match s with
  | none => false
  | some str => jsIncludes str sub

/-- The per-issue predicate of the enrichment block in the scan handler:
`issue.selector?.includes` of form/input/select (case-sensitive) or
`issue.message?.toLowerCase().includes` of form/label. -/
def issueRefsForm (i : Issue) : Bool :=
  optIncludes i.selector ("form") ||
  optIncludes i.selector ("input") ||
  optIncludes i.selector ("select") ||
  optIncludes (i.message.map lowerStr) ("form") ||
  optIncludes (i.message.map lowerStr) ("label")

/-- `hasFormIssues` local of the scan handler: `results.issues.some(...)`. -/
def hasFormIssues (issues : List Issue) : Bool :=
  issues.any issueRefsForm

/-- The synthetic notice pushed by the scan handler when forms are present
but no form-related issue was reported. -/
def formNotice : Issue :=
  { type := "notice"
    code := "WCAG2AA.info.form-detected"
    message := some ("Form elements detected on page. Ensure all forms are fully accessible.")
    selector := some ("form")
    context := some ("<form>...</form>") }

/-- The enrichment block of the scan handler: when `hasForm` holds and no
existing issue references a form, append the synthetic notice. -/
def enrich (issues : List Issue) (hasForm : Bool) : List Issue :=
  if hasForm && !hasFormIssues issues then issues ++ [formNotice] else issues

/-- The token predicate as claim C3 words it: any of form/input/select/label
as a case-insensitive substring of the selector or the message. -/
def claimRefsForm (i : Issue) : Bool :=
  [("form"), ("input"), ("select"), ("label")].any fun t =>
    optIncludes (i.selector.map lowerStr) t || optIncludes (i.message.map lowerStr) t

/-- An issue whose selector is exactly the token `label`. -/
def labelSelIssue : Issue :=
  { type := "error", code := "c1", message := some ("x"), selector := some ("label"),
    context := none }

/-- C3 counterexample: `labelSelIssue` references the token `label` in its
selector, so the claim predicts the list is returned unchanged, but the code
only checks form/input/select on selectors and appends the synthetic notice. -/
theorem C3_counterexample :
    claimRefsForm labelSelIssue = true ∧
    enrich [labelSelIssue] true ≠ [labelSelIssue] := by
  constructor
  · decide
  · decide

/-- C3 amended: if `hasForm` is true and no existing issue has a selector
containing form/input/select (case-sensitive) nor a message containing
form/label (case-insensitive), enrichment appends exactly the synthetic
notice `WCAG2AA.info.form-detected` at the end; in every other case the list
is returned unchanged; existing issues are never removed, reordered or
mutated (the result always extends the input on the right). -/
theorem C3_enrichment_amended (issues : List Issue) (hasForm : Bool) :
    (hasForm = true → hasFormIssues issues = false →
      enrich issues hasForm = issues ++ [formNotice]) ∧
    (hasForm = false ∨ hasFormIssues issues = true →
      enrich issues hasForm = issues) ∧
    ∃ extra, enrich issues hasForm = issues ++ extra := by
  refine ⟨?_, ?_, ?_⟩
  · intro hf hi
    simp [enrich, hf, hi]
  · rintro (hf | hi)
    · simp [enrich, hf]
    · simp [enrich, hi]
  · unfold enrich
    split
    · exact ⟨[formNotice], rfl⟩
    · exact ⟨[], (List.append_nil issues).symm⟩

/-- C3 amended witness: concrete enrichment of a single unrelated error. -/
theorem C3_amended_witness :
    enrich [errIssue] true = [errIssue] ++ [formNotice] :=
  (C3_enrichment_amended [errIssue] true).1 rfl (by decide)

lemma issueRefsForm_formNotice : issueRefsForm formNotice = true := by decide

/-- C7: the enrichment step is idempotent — the synthetic notice itself
references a form through its selector, so a second pass appends nothing. -/
theorem C7_enrich_idempotent (issues : List Issue) :
    enrich (enrich issues true) true = enrich issues true := by
  unfold enrich
  by_cases h : hasFormIssues issues
  · simp [h]
  · simp only [eq_self_iff_true, h, Bool.not_false, Bool.and_true, if_true,
      Bool.true_and]
    have h2 : hasFormIssues (issues ++ [formNotice]) = true := by
      simp [hasFormIssues, List.any_append, issueRefsForm_formNotice]
    simp [h2]

/-- Match a literal character pattern at the head of the input; on success
return the rest of the input. -/
def matchChars : List Char → List Char → Option (List Char)
  | [], l => some l
  | _ :: _, [] => none
  | p :: ps, c :: cs => if c = p then matchChars ps cs else none

/-- Anchored match of the regex `<NAME[^>]*>` at the head of the input:
the literal `<NAME` followed by some characters up to a closing `>`. -/
def matchOpenAt (name : List Char) (l : List Char) : Bool :=
  match matchChars ('<' :: name) l with
  | none => false
  | some rest => rest.any (fun c => c = '>')

/-- Unanchored search for the regex `<NAME[^>]*>` anywhere in the input
(`RegExp.test` semantics). -/
def regexSearch (name : List Char) : List Char → Bool
  | [] => false
  | c :: rest => matchOpenAt name (c :: rest) || regexSearch name rest

/-- One `/​<NAME[^>]*>/i` test from `hasFormElements`: the subject is folded
to lower case and searched for the lower-case pattern. -/
def testPattern (name : String) (html : String) : Bool :=
  regexSearch name.data (html.data.map Char.toLower)

/-- The fixed pattern table of `hasFormElements`. -/
def formPatterns : List String :=
  [("form"), ("input"), ("select"), ("textarea"), ("button"), ("label")]

/-- `hasFormElements` from `scan.js`: false on absent or empty input,
otherwise true when some pattern of the table matches. -/
def hasFormElements : Option String → Bool
  | none => false
  | some html =>
    if html = "" then false
    else formPatterns.any (fun name => testPattern name html)

/-- The specification reading of one pattern: the lower-cased HTML contains
an occurrence of `<NAME`, then characters none of which is `>`, then `>`
(tag-opening syntax for the element NAME). -/
def SpecOpeningTag (name : String) (html : String) : Prop :=
  ∃ pre mid post : List Char,
    html.data.map Char.toLower = pre ++ '<' :: (name.data ++ mid ++ '>' :: post) ∧
    '>' ∉ mid

lemma matchChars_eq_some {p : List Char} :
    ∀ {l r : List Char}, matchChars p l = some r ↔ l = p ++ r := by
  induction p with
  | nil => intro l r; simp [matchChars]
  | cons x ps ih =>
    intro l r
    cases l with
    | nil => simp [matchChars]
    | cons c cs =>
      by_cases h : c = x
      · subst h
        simp [matchChars, ih]
      · simp [matchChars, h]

lemma first_split {a : Char} {l : List Char} (h : a ∈ l) :
    ∃ m p, l = m ++ a :: p ∧ a ∉ m := by
  induction l with
  | nil => cases h
  | cons c rest ih =>
    by_cases hc : c = a
    · exact ⟨[], rest, by simp [hc], by simp⟩
    · have hmem : a ∈ rest := by
        rcases List.mem_cons.mp h with h1 | h1
        · exact absurd h1.symm hc
        · exact h1
      rcases ih hmem with ⟨m, p, he, hm⟩
      refine ⟨c :: m, p, by simp [he], ?_⟩
      simp only [List.mem_cons]
      rintro (h1 | h1)
      · exact hc h1.symm
      · exact hm h1

lemma any_gt_iff {l : List Char} :
    l.any (fun c => c = '>') = true ↔ ∃ m p, l = m ++ '>' :: p ∧ '>' ∉ m := by
  constructor
  · intro h
    have hm : '>' ∈ l := by
      rcases List.any_eq_true.mp h with ⟨x, hx, he⟩
      rcases of_decide_eq_true he with rfl
      exact hx
    exact first_split hm
  · rintro ⟨m, p, rfl, -⟩
    refine List.any_eq_true.mpr ⟨'>', ?_, by simp⟩
    simp

lemma matchOpenAt_iff {name l : List Char} :
    matchOpenAt name l = true ↔
      ∃ mid post, l = '<' :: (name ++ mid ++ '>' :: post) ∧ '>' ∉ mid := by
  unfold matchOpenAt
  cases hm : matchChars ('<' :: name) l with
  | none =>
    simp only [Bool.false_eq_true, false_iff]
    rintro ⟨mid, post, he, -⟩
    have : matchChars ('<' :: name) l = some (mid ++ '>' :: post) :=
      matchChars_eq_some.mpr (by simp [he])
    rw [hm] at this
    cases this
  | some rest =>
    have hl : l = '<' :: (name ++ rest) := by
      have := matchChars_eq_some.mp hm
      simpa using this
    subst hl
    rw [any_gt_iff]
    constructor
    · rintro ⟨m, p, rfl, hnm⟩
      exact ⟨m, p, by simp, hnm⟩
    · rintro ⟨mid, post, he, hnm⟩
      have : rest = mid ++ '>' :: post := by
        have h2 : name ++ rest = name ++ (mid ++ '>' :: post) := by
          have := List.cons.injEq '<' (name ++ rest) '<' (name ++ mid ++ '>' :: post) ▸ he
          simpa [List.append_assoc] using he
        exact List.append_cancel_left h2
      exact ⟨mid, post, this, hnm⟩

lemma regexSearch_iff {name : List Char} : ∀ {l : List Char},
    regexSearch name l = true ↔
      ∃ pre mid post, l = pre ++ '<' :: (name ++ mid ++ '>' :: post) ∧ '>' ∉ mid := by
  intro l
  induction l with
  | nil =>
    simp only [regexSearch, Bool.false_eq_true, false_iff]
    rintro ⟨pre, mid, post, he, -⟩
    have := congrArg List.length he
    simp [List.length_append] at this
    omega
  | cons c rest ih =>
    simp only [regexSearch, Bool.or_eq_true, ih, matchOpenAt_iff]
    constructor
    · rintro (⟨mid, post, he, hnm⟩ | ⟨pre, mid, post, he, hnm⟩)
      · exact ⟨[], mid, post, by simpa using he, hnm⟩
      · exact ⟨c :: pre, mid, post, by simp [he], hnm⟩
    · rintro ⟨pre, mid, post, he, hnm⟩
      cases pre with
      | nil =>
        left
        exact ⟨mid, post, by simpa using he, hnm⟩
      | cons x pre2 =>
        right
        rw [List.cons_append, List.cons.injEq] at he
        exact ⟨pre2, mid, post, he.2, hnm⟩

lemma testPattern_iff {name html : String} :
    testPattern name html = true ↔ SpecOpeningTag name html := by
  unfold testPattern SpecOpeningTag
  exact regexSearch_iff

lemma hasFormElements_some (html : String) :
    hasFormElements (some html) =
      if html = "" then false
      else formPatterns.any (fun name => testPattern name html) := rfl

/-- C4: `hasFormElements` returns true exactly when the HTML contains the
tag-opening syntax of one of form, input, select, textarea, button, label
(case-insensitive), and returns false for absent and for empty input. -/
theorem C4_hasFormElements (html : String) :
    (hasFormElements (some html) = true ↔
      ∃ name ∈ formPatterns, SpecOpeningTag name html) ∧
    hasFormElements none = false ∧ hasFormElements (some ("")) = false := by
  refine ⟨?_, rfl, by decide⟩
  rw [hasFormElements_some]
  by_cases h : html = ""
  · subst h
    rw [if_pos rfl]
    simp only [Bool.false_eq_true, false_iff]
    rintro ⟨name, -, pre, mid, post, he, -⟩
    have hd : (("" : String).data.map Char.toLower) = [] := rfl
    rw [hd] at he
    have := congrArg List.length he
    simp [List.length_append] at this
    omega
  · rw [if_neg h]
    simp only [List.any_eq_true, testPattern_iff]

/-- A 51-issue list dominated by errors: 30 errors and 21 notices. -/
def bigList : List Issue :=
  List.replicate 30 errIssue ++ List.replicate 21 noticeIssue

/-- C9: `calculateScore` is not monotone — on a 51-issue list of 30 errors
and 21 notices the score is 1, and appending one more notice raises it to 3,
because the `50/total` scale factor shrinks every deduction. -/
theorem C9_not_monotone :
    50 < bigList.length ∧
    calculateScore bigList = 1 ∧
    calculateScore (bigList ++ [noticeIssue]) = 3 ∧
    calculateScore bigList < calculateScore (bigList ++ [noticeIssue]) := by
  have hE : countType bigList ("error") = 30 := by decide
  have hW : countType bigList ("warning") = 0 := by decide
  have hN : countType bigList ("notice") = 21 := by decide
  have hT : totalIssues bigList = 51 := by decide
  have hE2 : countType (bigList ++ [noticeIssue]) ("error") = 30 := by decide
  have hW2 : countType (bigList ++ [noticeIssue]) ("warning") = 0 := by decide
  have hN2 : countType (bigList ++ [noticeIssue]) ("notice") = 22 := by decide
  have hT2 : totalIssues (bigList ++ [noticeIssue]) = 52 := by decide
  have hsf : scaleFactor bigList = 50 / 51 := by
    unfold scaleFactor
    rw [hT]
    norm_num
  have hsf2 : scaleFactor (bigList ++ [noticeIssue]) = 50 / 52 := by
    unfold scaleFactor
    rw [hT2]
    norm_num
  have h1 : calculateScore bigList = 1 := by
    unfold calculateScore
    rw [hE, hW, hN, hsf]
    norm_num [jsRound]
  have h2 : calculateScore (bigList ++ [noticeIssue]) = 3 := by
    unfold calculateScore
    rw [hE2, hW2, hN2, hsf2]
    norm_num [jsRound]
  exact ⟨by decide, h1, h2, by rw [h1, h2]; norm_num⟩

/-- Outcome of the primary (Gemini) provider call: a successful response
carrying an optional candidate text, or a thrown error carrying the optional
HTTP error code found at `error.response.data.error.code`. -/
inductive GeminiResult
  | success (text : Option String)
  | failure (code : Option Nat)
deriving DecidableEq

/-- Outcome of the secondary (OpenAI) provider call. -/
inductive OpenAIResult
  | success (text : Option String)
  | failure
deriving DecidableEq

/-- Environment of one fix-suggestion request: which provider credentials
are configured and how each provider call would end. -/
structure FixEnv where
  geminiKey : Bool
  openaiKey : Bool
  gemini : GeminiResult
  openai : OpenAIResult
deriving DecidableEq

/-- Observable collaborator invocations of the fix handler. -/
inductive FixEvent
  | gemini
  | openai
deriving DecidableEq

/-- Response of the fix handler. -/
inductive FixResp
  | fix (text : String)
  | badRequest (msg : String)
  | serverError
deriving DecidableEq

/-- Rule-based template for missing alt text. -/
def altTemplate : String :=
  "It appears there\x27s an image missing alt text. Add descriptive alt attributes to your images:\n\n```html\n<!-- Before -->\n<img src=\"image.jpg\">\n\n<!-- After -->\n<img src=\"image.jpg\" alt=\"Descriptive text about the image content\">\n```\n\nFor decorative images that don\x27t convey information, use an empty alt attribute:\n```html\n<img src=\"decorative.jpg\" alt=\"\">\n```"

/-- Rule-based template for missing form labels. -/
def labelTemplate : String :=
  "Form inputs should be associated with labels:\n\n```html\n<!-- Before -->\n<input type=\"text\" name=\"username\">\n\n<!-- After -->\n<label for=\"username\">Username:</label>\n<input type=\"text\" name=\"username\" id=\"username\">\n```\n\nOr you can wrap the input with the label:\n```html\n<label>\n  Username:\n  <input type=\"text\" name=\"username\">\n</label>\n```"

/-- Rule-based template for color contrast. -/
def contrastTemplate : String :=
  "This appears to be a color contrast issue. Ensure text has sufficient contrast with its background:\n\n1. For normal text (under 18pt), the contrast ratio should be at least 4.5:1\n2. For large text (18pt+), the contrast ratio should be at least 3:1\n\nConsider using a color contrast checker to verify your colors meet accessibility standards."

/-- `generateBasicFixSuggestion` from `fix.js`: keyword-matched templates on
the lower-cased issue message; the `html` argument is never consulted.
JS operator precedence gives `alt || (image && text)` in the first guard. -/
def generateBasicFixSuggestion (html : String) (issue : Issue) : Option String :=
  let issueLower := lowerStr (issue.message.getD (""))
  if jsIncludes issueLower ("alt")
      || (jsIncludes issueLower ("image") && jsIncludes issueLower ("text")) then
    some altTemplate
  else if jsIncludes issueLower ("label") || jsIncludes issueLower ("form") then
    some labelTemplate
  else if jsIncludes issueLower ("contrast") || jsIncludes issueLower ("color") then
    some contrastTemplate
  else
    none

/-- `getGeneralRecommendation` from `fix.js`: generic advisory keyed by the
issue type, with `issue.type || \x27error\x27` falsy handling and a default. -/
def getGeneralRecommendation (issue : Issue) : String :=
  let issueType := if issue.type = "" then ("error") else issue.type
  if issueType = "error" then
    "This is a critical accessibility issue that should be fixed immediately. Consider consulting the WCAG guidelines."
  else if issueType = "warning" then
    "This is a potential accessibility issue that may affect some users. Review the element against WCAG guidelines."
  else if issueType = "notice" then
    "This is a minor accessibility concern that could be improved for better user experience."
  else
    "Review the affected element against WCAG 2.1 accessibility guidelines."

/-- The OpenAI fallback section of the fix handler (everything after the
Gemini block): invoke OpenAI when its key is configured, otherwise fall back
to the rule-based template and then the generic advisory. -/
def openAISection (html : String) (issue : Issue) (env : FixEnv)
    (ev : List FixEvent) : FixResp × List FixEvent :=
  if env.openaiKey then
    match env.openai with
    | OpenAIResult.success text =>
      (FixResp.fix (text.getD ("No response from OpenAI.")), ev ++ [FixEvent.openai])
    | OpenAIResult.failure =>
      (FixResp.fix ((generateBasicFixSuggestion html issue).getD
        ("Could not generate AI-powered fix due to API errors.\n\nGeneral recommendation: "
          ++ getGeneralRecommendation issue)), ev ++ [FixEvent.openai])
  else
    (FixResp.fix ((generateBasicFixSuggestion html issue).getD
      ("No AI provider keys available.\n\nGeneral recommendation: "
        ++ getGeneralRecommendation issue)), ev)

/-- The `POST /api/fix` handler from `fix.js`: input guard, Gemini attempt,
rate-limit (429) fallback to rule-based templates, then the OpenAI section.
The second component records which providers were invoked. -/
def fixHandler (html : Option String) (issue : Option Issue) (env : FixEnv) :
    FixResp × List FixEvent :=
  match html, issue with
  | none, _ => (FixResp.badRequest ("Missing html or issue"), [])
  | some _, none => (FixResp.badRequest ("Missing html or issue"), [])
  | some h, some i =>
    if h = "" then (FixResp.badRequest ("Missing html or issue"), [])
    else if env.geminiKey then
      match env.gemini with
      | GeminiResult.success text =>
        (FixResp.fix (text.getD ("No response from Gemini.")), [FixEvent.gemini])
      | GeminiResult.failure code =>
        if code = some 429 then
          match generateBasicFixSuggestion h i with
          | some basicFix => (FixResp.fix basicFix, [FixEvent.gemini])
          | none =>
            if env.openaiKey then openAISection h i env [FixEvent.gemini]
            else
              (FixResp.fix
                ("Unable to generate fix suggestion due to API rate limits.\n\nGeneral recommendation: "
                  ++ getGeneralRecommendation i), [FixEvent.gemini])
        else openAISection h i env [FixEvent.gemini]
    else openAISection h i env []

/-- C5: when the Gemini key is configured, Gemini fails with a 429
rate-limit code, and a rule-based template matches the issue message, the
handler returns exactly that template text and never invokes OpenAI. -/
theorem C5_rate_limit_uses_template (html : String) (issue : Issue) (env : FixEnv)
    (t : String)
    (hhtml : html ≠ "")
    (hkey : env.geminiKey = true)
    (hrl : env.gemini = GeminiResult.failure (some 429))
    (htempl : generateBasicFixSuggestion html issue = some t) :
    fixHandler (some html) (some issue) env = (FixResp.fix t, [FixEvent.gemini]) ∧
    FixEvent.openai ∉ (fixHandler (some html) (some issue) env).2 := by
  have h1 : fixHandler (some html) (some issue) env
      = (FixResp.fix t, [FixEvent.gemini]) := by
    simp [fixHandler, hhtml, hkey, hrl, htempl]
  refine ⟨h1, ?_⟩
  rw [h1]
  simp

/-- Sample alt-text issue used in concrete witnesses. -/
def altIssue : Issue :=
  { type := "error", code := "img-alt",
    message := some ("Img element missing an alt attribute"),
    selector := none, context := none }

/-- Rate-limited environment with both provider keys configured. -/
def rlEnv : FixEnv :=
  { geminiKey := true, openaiKey := true,
    gemini := GeminiResult.failure (some 429),
    openai := OpenAIResult.success (some ("secondary provider output")) }

set_option maxRecDepth 8000 in
/-- C5 witness: a concrete rate-limited request on an alt-text issue yields
the alt template and a trace without any OpenAI call. -/
theorem C5_witness :
    fixHandler (some ("<img>")) (some altIssue) rlEnv
      = (FixResp.fix altTemplate, [FixEvent.gemini]) :=
  (C5_rate_limit_uses_template ("<img>") altIssue rlEnv altTemplate
    (by decide) rfl rfl (by decide)).1

lemma openAISection_isFix (html : String) (issue : Issue) (env : FixEnv)
    (ev : List FixEvent) :
    ∃ t, (openAISection html issue env ev).1 = FixResp.fix t := by
  unfold openAISection
  split
  · split <;> exact ⟨_, rfl⟩
  · exact ⟨_, rfl⟩

lemma fixHandler_isFix (html : String) (issue : Issue) (env : FixEnv)
    (hhtml : html ≠ "") :
    ∃ t, (fixHandler (some html) (some issue) env).1 = FixResp.fix t := by
  simp only [fixHandler]
  rw [if_neg hhtml]
  split
  · split
    · exact ⟨_, rfl⟩
    · split
      · split
        · exact ⟨_, rfl⟩
        · split
          · exact openAISection_isFix _ _ _ _
          · exact ⟨_, rfl⟩
      · exact openAISection_isFix _ _ _ _
  · exact openAISection_isFix _ _ _ _

/-- C6: with no provider credential and no matching template, the handler
returns a successful fix whose text is the generic advisory keyed by the
issue type; and for any provider environment at all, a request with valid
inputs receives a fix response, never a failure. -/
theorem C6_generic_advisory (html : String) (issue : Issue) (env : FixEnv)
    (hhtml : html ≠ "")
    (hg : env.geminiKey = false)
    (ho : env.openaiKey = false)
    (hnone : generateBasicFixSuggestion html issue = none) :
    fixHandler (some html) (some issue) env
      = (FixResp.fix ("No AI provider keys available.\n\nGeneral recommendation: "
          ++ getGeneralRecommendation issue), []) ∧
    ∀ env2 : FixEnv, ∃ t,
      (fixHandler (some html) (some issue) env2).1 = FixResp.fix t := by
  constructor
  · simp [fixHandler, openAISection, hhtml, hg, ho, hnone]
  · intro env2
    exact fixHandler_isFix html issue env2 hhtml

/-- An issue whose message matches no rule-based template. -/
def plainIssue : Issue :=
  { type := "warning", code := "w-plain",
    message := some ("something unusual happened"),
    selector := none, context := none }

/-- Environment with no provider credentials configured. -/
def noKeysEnv : FixEnv :=
  { geminiKey := false, openaiKey := false,
    gemini := GeminiResult.failure none, openai := OpenAIResult.failure }

/-- C6 witness: a concrete credential-less request on a template-less issue
yields the generic advisory for its type. -/
theorem C6_witness :
    fixHandler (some ("<div>x</div>")) (some plainIssue) noKeysEnv
      = (FixResp.fix ("No AI provider keys available.\n\nGeneral recommendation: "
          ++ getGeneralRecommendation plainIssue), []) :=
  (C6_generic_advisory ("<div>x</div>") plainIssue noKeysEnv
    (by decide) rfl rfl (by decide)).1

/-- C10: the rule-based template stage ignores the HTML context entirely —
two requests differing only in `html` select identical templates. -/
theorem C10_template_html_independent (h1 h2 : String) (issue : Issue) :
    generateBasicFixSuggestion h1 issue = generateBasicFixSuggestion h2 issue := rfl

/-- Observable collaborator invocations of the scan handler:
browser launch, page navigation, the pa11y engine run, browser close,
and the database save. -/
inductive ScanEvent
  | launch
  | goto
  | pa11y
  | close
  | save
deriving DecidableEq

/-- Environment of one scan request: whether each external step succeeds
and what the successful steps would return. -/
structure ScanEnv where
  launchOk : Bool
  gotoOk : Bool
  pageContent : String
  engineOk : Bool
  engineIssues : List Issue
  saveOk : Bool

/-- The persisted scan record fields derived by the handler. -/
structure ScanRecord where
  url : String
  issues : List Issue
  score : ℤ
  hasForm : Bool
deriving DecidableEq

/-- Response of the scan handler. -/
inductive ScanResp
  | ok (record : ScanRecord)
  | badRequest (msg : String)
  | serverError
deriving DecidableEq

/-- The `POST /api/scan` handler from `scan.js` as a trace semantics: the
declared environment decides each external outcome, and the event list
records the collaborator calls actually made, in order. A thrown step sends
control to the catch block, which returns a 500 response directly; the code
reaches `browser.close()` only after a successful pa11y run. -/
def scanHandler (url : Option String) (env : ScanEnv) : ScanResp × List ScanEvent :=
  match url with
  | none => (ScanResp.badRequest ("Missing URL"), [])
  | some u =>
    if u = "" then (ScanResp.badRequest ("Missing URL"), [])
    else if env.launchOk = false then (ScanResp.serverError, [])
    else if env.gotoOk = false then
      (ScanResp.serverError, [ScanEvent.launch, ScanEvent.goto])
    else if env.engineOk = false then
      (ScanResp.serverError, [ScanEvent.launch, ScanEvent.goto, ScanEvent.pa11y])
    else
      let hasForm := hasFormElements (some env.pageContent)
      let issues := enrich env.engineIssues hasForm
      let record : ScanRecord :=
        { url := u, issues := issues, score := calculateScore issues, hasForm := hasForm }
      if env.saveOk = false then
        (ScanResp.serverError,
          [ScanEvent.launch, ScanEvent.goto, ScanEvent.pa11y, ScanEvent.close,
            ScanEvent.save])
      else
        (ScanResp.ok record,
          [ScanEvent.launch, ScanEvent.goto, ScanEvent.pa11y, ScanEvent.close,
            ScanEvent.save])

/-- Environment in which the browser launches but navigation fails. -/
def leakEnv : ScanEnv :=
  { launchOk := true, gotoOk := false, pageContent := "", engineOk := true,
    engineIssues := [], saveOk := true }

/-- C2 is violated by the code: with a navigation failure after a successful
launch, the handler returns the 500 response with the browser launched and
never closed — `browser.close()` sits after the pa11y call inside the `try`
block and the `catch` block does not close the browser. -/
theorem C2_browser_leak :
    (scanHandler (some ("https://example.com")) leakEnv).2.count ScanEvent.launch = 1 ∧
    (scanHandler (some ("https://example.com")) leakEnv).2.count ScanEvent.close = 0 ∧
    (scanHandler (some ("https://example.com")) leakEnv).1 = ScanResp.serverError := by
  refine ⟨?_, ?_, ?_⟩ <;> decide

/-- C8: invalid input is rejected with a 400 response before any
collaborator runs — a scan with a missing url, and a fix request with a
missing html or a missing issue, each return immediately with an empty
invocation trace, for every environment. -/
theorem C8_invalid_input_rejected :
    (∀ env : ScanEnv, scanHandler none env = (ScanResp.badRequest ("Missing URL"), [])) ∧
    (∀ (issue : Option Issue) (env : FixEnv),
      fixHandler none issue env = (FixResp.badRequest ("Missing html or issue"), [])) ∧
    (∀ (html : String) (env : FixEnv),
      fixHandler (some html) none env = (FixResp.badRequest ("Missing html or issue"), [])) := by
  refine ⟨fun env => rfl, fun issue env => ?_, fun html env => rfl⟩
  cases issue <;> rfl

end AssessSight
